import Mathlib

/-!
Shallow embedding of `libs/hwui/GlLayer.cpp` (the GL-backed layer of the
hwui rendering pipeline) and a verification of its resource-lifecycle
contract.

The layer owns one GPU texture resource whose driver handle uses `0` as the
"not allocated" sentinel.  The external collaborators are embedded as
explicit state that the operations thread through:

* the GL driver's texture-name state (`Driver`): allocate (`glGenTextures`)
  hands out fresh nonzero names, destroy (`glDeleteTextures`) retires one;
* the process-wide Caches singleton's texture binding tracker
  (`TextureState`), recording which handle is active per binding target;
* the Caches liveness flag `isInitialized()`, which can be flipped by the
  outside world at any time, is passed to `clearTexture` as a boolean
  argument.

Every operation additionally returns the list of calls (`Event`) it issued
to the tracker and to the driver, so that "exactly one destroy call",
"no tracker call" and similar properties are stated by inspecting that list.
-/

namespace HwuiGlLayer

/-- Calls issued to the external collaborators: the Caches texture binding
tracker (`bindTexture` / `unbindTexture`) and the GL driver
(`glGenTextures` / `glDeleteTextures`).  Targets and handles are the GL
enum / name values, embedded as naturals. -/
inductive Event where
  | trackerBind : Nat → Nat → Event
  | trackerUnbind : Nat → Event
  | driverGen : Nat → Event
  | driverDelete : Nat → Event
deriving DecidableEq

/-- Model of the GL driver's texture-name state (external interface, spec
section 6: allocate-handle / destroy-handle primitives).  `glGenTextures`
returns unused names and never the reserved name `0`; this is modelled by a
counter `nextId` that starts at `1` in a fresh context, together with the
set of currently live names. -/
structure Driver where
  nextId : Nat
  live : List Nat
deriving DecidableEq

/-- Driver allocate primitive: hand out the next unused name. -/
def Driver.glGenTextures (d : Driver) : Nat × Driver :=
  (d.nextId, { nextId := d.nextId + 1, live := d.nextId :: d.live })

/-- Driver destroy primitive: retire a name. -/
def Driver.glDeleteTextures (d : Driver) (h : Nat) : Driver :=
  { d with live := d.live.erase h }

/-- Modelled from the spec: the Caches texture binding tracker
(`renderstate/TextureState`, not under `src/`).  Per the spec's glossary it
"records which texture is currently active per target"; the map is an
association list from binding target to the bound handle, `0` meaning
nothing bound. -/
structure TextureState where
  bound : List (Nat × Nat)
deriving DecidableEq

/-- Replace (or add) the handle bound to one target. -/
def setBinding : List (Nat × Nat) → Nat → Nat → List (Nat × Nat)
  | [], t, h => [(t, h)]
  | p :: ps, t, h => if p.1 = t then (t, h) :: ps else p :: setBinding ps t h

/-- Modelled from the spec: tracker `bindTexture(target, handle)` makes the
pair the active binding for that target. -/
def TextureState.bindTexture (ts : TextureState) (target handle : Nat) : TextureState :=
  { bound := setBinding ts.bound target handle }

/-- Modelled from the spec: tracker `unbindTexture(handle)` clears every
binding that currently holds the handle; it tolerates a handle that is not
bound anywhere (no state change in that case). -/
def TextureState.unbindTexture (ts : TextureState) (handle : Nat) : TextureState :=
  { bound := ts.bound.map fun p => if p.2 = handle then (p.1, 0) else p }

/-- The external world the layer's operations act on: the driver and the
Caches binding tracker. -/
structure World where
  driver : Driver
  textureState : TextureState
deriving DecidableEq

/-- A fresh device context: no live texture names, first unused name `1`,
nothing bound. -/
def World.initial : World :=
  { driver := { nextId := 1, live := [] }, textureState := { bound := [] } }

/-- The GPU texture resource owned by the layer (fields used by
`GlLayer.cpp`: `mId`, `mWidth`, `mHeight` and the fixed binding target
returned by `target()`). -/
structure Texture where
  mId : Nat
  mWidth : Nat
  mHeight : Nat
  mTarget : Nat
deriving DecidableEq

/-- Device-API variant tag of the abstract `Layer` base class; the GL
layer is constructed with `Api::OpenGL`. -/
inductive Api where
  | openGL
  | vulkan
deriving DecidableEq

/-- The GL-backed layer: the base-class API tag plus the owned texture
resource.  The `caches` member of the C++ class is the shared singleton,
embedded as the explicit `World` argument of each operation. -/
structure GlLayer where
  apiVariant : Api
  texture : Texture
deriving DecidableEq

/-- Modelled from the spec: `Texture::deleteTexture` (`Texture.cpp` is not
under `src/`).  The spec's destruction transition describes this routine as
performing "the same driver destroy as `release()`" with the tracker unbind
not required, and `release()` is guarded on `handle != 0` and resets the
handle to `0`; section 7 adds that every operation is a no-op on the
not-yet-allocated state.  So: if the handle is nonzero, issue the driver's
destroy-texture call; in all cases reset the handle to `0`. -/
def Texture.deleteTexture (t : Texture) (w : World) : Texture × World × List Event :=
  if t.mId ≠ 0 then
    ({ t with mId := 0 },
     { w with driver := w.driver.glDeleteTextures t.mId },
     [Event.driverDelete t.mId])
  else
    ({ t with mId := 0 }, w, [])

/-- `GlLayer::GlLayer(renderState, layerWidth, layerHeight)`: stores the
dimensions into the owned texture.  The initial field values of `Texture`
are modelled from the spec (`Texture.h` is not under `src/`): the handle
starts at the unallocated sentinel `0`, and the binding target starts at
the GL none value `0` (fixed per resource, not touched by this core). -/
def GlLayer.construct (layerWidth layerHeight : Nat) : GlLayer :=
  { apiVariant := Api.openGL,
    texture := { mId := 0, mWidth := layerWidth, mHeight := layerHeight, mTarget := 0 } }

/-- `GlLayer::~GlLayer()`: `if (texture.mId) texture.deleteTexture();`.
The layer object itself disappears, so only the resulting world and the
issued calls are returned. -/
def GlLayer.destructor (l : GlLayer) (w : World) : World × List Event :=
  if l.texture.mId ≠ 0 then
    ((l.texture.deleteTexture w).2.1, (l.texture.deleteTexture w).2.2)
  else
    (w, [])

/-- `GlLayer::onGlContextLost()`: `texture.deleteTexture();`
(unconditionally). -/
def GlLayer.onGlContextLost (l : GlLayer) (w : World) : GlLayer × World × List Event :=
  ({ l with texture := (l.texture.deleteTexture w).1 },
   (l.texture.deleteTexture w).2.1,
   (l.texture.deleteTexture w).2.2)

/-- `GlLayer::bindTexture() const`:
`if (texture.mId) caches.textureState().bindTexture(texture.target(), texture.mId);`.
The method is declared `const`; the embedding still returns the layer so
that the absence of mutation is a provable fact rather than a modelling
assumption. -/
def GlLayer.bindTexture (l : GlLayer) (w : World) : GlLayer × World × List Event :=
  if l.texture.mId ≠ 0 then
    (l,
     { w with textureState := w.textureState.bindTexture l.texture.mTarget l.texture.mId },
     [Event.trackerBind l.texture.mTarget l.texture.mId])
  else
    (l, w, [])

/-- `GlLayer::generateTexture()`:
`if (!texture.mId) glGenTextures(1, &texture.mId);`. -/
def GlLayer.generateTexture (l : GlLayer) (w : World) : GlLayer × World × List Event :=
  if l.texture.mId = 0 then
    ({ l with texture := { l.texture with mId := (w.driver.glGenTextures).1 } },
     { w with driver := (w.driver.glGenTextures).2 },
     [Event.driverGen (w.driver.glGenTextures).1])
  else
    (l, w, [])

/-- `GlLayer::clearTexture()`:
`if (caches.isInitialized()) caches.textureState().unbindTexture(texture.mId); texture.mId = 0;`.
The Caches liveness flag is external state and is passed in as
`cachesInitialized`; in both branches the handle ends up `0`. -/
def GlLayer.clearTexture (l : GlLayer) (cachesInitialized : Bool) (w : World) :
    GlLayer × World × List Event :=
  if cachesInitialized then
    ({ l with texture := { l.texture with mId := 0 } },
     { w with textureState := w.textureState.unbindTexture l.texture.mId },
     [Event.trackerUnbind l.texture.mId])
  else
    ({ l with texture := { l.texture with mId := 0 } }, w, [])

/-- Number of tracker bind calls in an issued-call list. -/
def countTrackerBind (evs : List Event) : Nat :=
  (evs.filter fun e => match e with | Event.trackerBind _ _ => true | _ => false).length

/-- Number of tracker unbind calls in an issued-call list. -/
def countTrackerUnbind (evs : List Event) : Nat :=
  (evs.filter fun e => match e with | Event.trackerUnbind _ => true | _ => false).length

/-- Number of driver allocate calls in an issued-call list. -/
def countDriverGen (evs : List Event) : Nat :=
  (evs.filter fun e => match e with | Event.driverGen _ => true | _ => false).length

/-- Number of driver destroy calls in an issued-call list. -/
def countDriverDelete (evs : List Event) : Nat :=
  (evs.filter fun e => match e with | Event.driverDelete _ => true | _ => false).length

/-- One invocation of a layer operation, for the reachable-state
relation.  `clear` carries the externally-controlled Caches liveness flag
observed at that invocation. -/
inductive LayerOp where
  | generate
  | bindTex
  | clear (cachesInitialized : Bool)
  | contextLost
deriving DecidableEq

/-- Apply one operation to a layer-and-world state, discarding the issued
calls. -/
def runOp (o : LayerOp) (s : GlLayer × World) : GlLayer × World :=
  match o with
  | LayerOp.generate => ((s.1.generateTexture s.2).1, (s.1.generateTexture s.2).2.1)
  | LayerOp.bindTex => ((s.1.bindTexture s.2).1, (s.1.bindTexture s.2).2.1)
  | LayerOp.clear ci => ((s.1.clearTexture ci s.2).1, (s.1.clearTexture ci s.2).2.1)
  | LayerOp.contextLost => ((s.1.onGlContextLost s.2).1, (s.1.onGlContextLost s.2).2.1)

/-- Apply a sequence of operations. -/
def runOps (ops : List LayerOp) (s : GlLayer × World) : GlLayer × World :=
  ops.foldl (fun s o => runOp o s) s

/-- States reachable from a freshly constructed layer in a fresh device
context by any sequence of layer operations. -/
def Reachable (s : GlLayer × World) : Prop :=
  ∃ lw lh ops, s = runOps ops (GlLayer.construct lw lh, World.initial)

/-- Driver-state health: the next unused name is nonzero and no live name
is the reserved sentinel `0`. -/
def DriverOk (d : Driver) : Prop :=
  d.nextId ≠ 0 ∧ ∀ x ∈ d.live, x ≠ 0

/-- A sample layer in the Allocated state (handle `5`). -/
def sampleAllocLayer : GlLayer :=
  { apiVariant := Api.openGL,
    texture := { mId := 5, mWidth := 256, mHeight := 256, mTarget := 3553 } }

/-- A sample world in which the sample layer's handle is live and bound. -/
def sampleWorld : World :=
  { driver := { nextId := 6, live := [5] }, textureState := { bound := [(3553, 5)] } }

/-- The initial state of a freshly constructed 256 by 256 layer. -/
def sampleInit : GlLayer × World := (GlLayer.construct 256 256, World.initial)

/-- Unbinding the sentinel handle `0` never changes the tracker: a binding
holding `0` is replaced by `0`, any other binding is untouched. -/
lemma unbindTexture_zero (ts : TextureState) : ts.unbindTexture 0 = ts := by
  cases ts with
  | mk bound =>
    simp only [TextureState.unbindTexture, TextureState.mk.injEq]
    induction bound with
    | nil => rfl
    | cons p ps ih =>
      cases p with
      | mk t h =>
        by_cases hp : h = 0
        · subst hp
          simp [ih]
        · simp [hp, ih]

/-- The fresh device context satisfies the driver-state invariant. -/
lemma driverOk_initial : DriverOk World.initial.driver := by
  refine ⟨by decide, ?_⟩
  intro x hx
  simp [World.initial] at hx

/-- Each layer operation preserves the driver-state invariant. -/
lemma driverOk_runOp (o : LayerOp) (s : GlLayer × World) (h : DriverOk s.2.driver) :
    DriverOk (runOp o s).2.driver := by
  obtain ⟨h1, h2⟩ := h
  cases o with
  | generate =>
    by_cases h0 : s.1.texture.mId = 0
    · refine ⟨?_, ?_⟩ <;>
        simp only [runOp, GlLayer.generateTexture, Driver.glGenTextures, h0, if_pos]
      · exact Nat.succ_ne_zero _
      · intro x hx
        rcases List.mem_cons.mp hx with hx | hx
        · exact hx ▸ h1
        · exact h2 x hx
    · simpa [runOp, GlLayer.generateTexture, h0] using ⟨h1, h2⟩
  | bindTex =>
    by_cases h0 : s.1.texture.mId ≠ 0 <;>
      simpa [runOp, GlLayer.bindTexture, h0] using ⟨h1, h2⟩
  | clear ci =>
    cases ci <;> simpa [runOp, GlLayer.clearTexture] using ⟨h1, h2⟩
  | contextLost =>
    by_cases h0 : s.1.texture.mId ≠ 0
    · refine ⟨?_, ?_⟩ <;>
        simp only [runOp, GlLayer.onGlContextLost, Texture.deleteTexture,
          Driver.glDeleteTextures, if_pos h0]
      · exact h1
      · intro x hx
        exact h2 x (List.mem_of_mem_erase hx)
    · simpa [runOp, GlLayer.onGlContextLost, Texture.deleteTexture, h0] using ⟨h1, h2⟩

/-- Any operation sequence preserves the driver-state invariant. -/
lemma driverOk_runOps (ops : List LayerOp) (s : GlLayer × World) (h : DriverOk s.2.driver) :
    DriverOk (runOps ops s).2.driver := by
  induction ops generalizing s with
  | nil => exact h
  | cons o rest ih => exact ih (runOp o s) (driverOk_runOp o s h)

/-- Every reachable state satisfies the driver-state invariant. -/
lemma driverOk_reachable (s : GlLayer × World) (h : Reachable s) : DriverOk s.2.driver := by
  obtain ⟨lw, lh, ops, rfl⟩ := h
  exact driverOk_runOps ops _ driverOk_initial

/-- Claim C1 (counterexample): the claim states that `onGlContextLost` on an
allocated layer issues no driver destroy-texture call and only resets the
handle in memory.  On the allocated sample layer, `onGlContextLost` (whose
body is `texture.deleteTexture()`) issues a driver destroy call, so the
claim as stated is false at this input. -/
theorem claim1_counterexample :
    sampleAllocLayer.texture.mId ≠ 0 ∧
    ¬ countDriverDelete (GlLayer.onGlContextLost sampleAllocLayer sampleWorld).2.2 = 0 := by
  decide

/-- Claim C1 (amended): invoking `onGlContextLost` on an allocated layer
results in `handle == 0`, but exactly one driver destroy call is issued (the
same `texture.deleteTexture()` the destructor performs) and no tracker
call. -/
theorem claim1_theorem (l : GlLayer) (w : World) (h : l.texture.mId ≠ 0) :
    (GlLayer.onGlContextLost l w).1.texture.mId = 0 ∧
    (GlLayer.onGlContextLost l w).2.2 = [Event.driverDelete l.texture.mId] := by
  simp [GlLayer.onGlContextLost, Texture.deleteTexture, h]

/-- Claim C1 witness: the amended statement instantiated on the allocated
sample layer. -/
theorem claim1_witness :
    sampleAllocLayer.texture.mId ≠ 0 ∧
    ((GlLayer.onGlContextLost sampleAllocLayer sampleWorld).1.texture.mId = 0 ∧
     (GlLayer.onGlContextLost sampleAllocLayer sampleWorld).2.2 =
       [Event.driverDelete sampleAllocLayer.texture.mId]) :=
  ⟨by decide, claim1_theorem sampleAllocLayer sampleWorld (by decide)⟩

/-- Claim C2 (counterexample): the claim states that `clearTexture` on an
allocated layer with the Caches initialized issues exactly one tracker
unbind call plus exactly one driver destroy call.  On the allocated sample
layer, the unbind is issued but no driver destroy call is: the code only
unbinds and sets `texture.mId = 0`. -/
theorem claim2_counterexample :
    sampleAllocLayer.texture.mId ≠ 0 ∧
    countTrackerUnbind (GlLayer.clearTexture sampleAllocLayer true sampleWorld).2.2 = 1 ∧
    ¬ countDriverDelete (GlLayer.clearTexture sampleAllocLayer true sampleWorld).2.2 = 1 := by
  decide

/-- Claim C2 (amended): invoking `clearTexture` on an allocated layer with
the Caches initialized results in `handle == 0` and exactly one tracker
unbind call; no driver destroy call is issued — the handle is dropped
without destroying the driver-side resource. -/
theorem claim2_theorem (l : GlLayer) (w : World) (_h : l.texture.mId ≠ 0) :
    (GlLayer.clearTexture l true w).1.texture.mId = 0 ∧
    (GlLayer.clearTexture l true w).2.2 = [Event.trackerUnbind l.texture.mId] := by
  simp [GlLayer.clearTexture]

/-- Claim C2 witness: the amended statement instantiated on the allocated
sample layer. -/
theorem claim2_witness :
    sampleAllocLayer.texture.mId ≠ 0 ∧
    ((GlLayer.clearTexture sampleAllocLayer true sampleWorld).1.texture.mId = 0 ∧
     (GlLayer.clearTexture sampleAllocLayer true sampleWorld).2.2 =
       [Event.trackerUnbind sampleAllocLayer.texture.mId]) :=
  ⟨by decide, claim2_theorem sampleAllocLayer sampleWorld (by decide)⟩

/-- Claim C3: when the Caches reports not initialized, `clearTexture` still
results in `handle == 0`, and zero calls are made to the tracker or the
driver (the world is untouched and the issued-call list is empty). -/
theorem claim3_theorem (l : GlLayer) (w : World) :
    (GlLayer.clearTexture l false w).1.texture.mId = 0 ∧
    (GlLayer.clearTexture l false w).2.1 = w ∧
    (GlLayer.clearTexture l false w).2.2 = [] := by
  simp [GlLayer.clearTexture]

/-- Claim C4 (counterexample): the claim states that for every layer, two
consecutive `generateTexture` calls issue exactly one driver allocate call.
On the already-allocated sample layer both calls are no-ops, so zero
allocate calls are issued, not one. -/
theorem claim4_counterexample :
    sampleAllocLayer.texture.mId ≠ 0 ∧
    ¬ countDriverGen ((GlLayer.generateTexture sampleAllocLayer sampleWorld).2.2 ++
        (GlLayer.generateTexture (GlLayer.generateTexture sampleAllocLayer sampleWorld).1
          (GlLayer.generateTexture sampleAllocLayer sampleWorld).2.1).2.2) = 1 := by
  decide

/-- Claim C4 (amended): `generateTexture` is idempotent.  Provided the
driver hands out nonzero names, two consecutive calls issue exactly one
driver allocate call when the layer starts unallocated and zero when it is
already allocated, and in both cases the second call is a no-op that leaves
the handle (indeed the whole layer) unchanged. -/
theorem claim4_theorem (l : GlLayer) (w : World) (h : w.driver.nextId ≠ 0) :
    countDriverGen ((GlLayer.generateTexture l w).2.2 ++
        (GlLayer.generateTexture (GlLayer.generateTexture l w).1
          (GlLayer.generateTexture l w).2.1).2.2) =
      (if l.texture.mId = 0 then 1 else 0) ∧
    (GlLayer.generateTexture (GlLayer.generateTexture l w).1
        (GlLayer.generateTexture l w).2.1).1 = (GlLayer.generateTexture l w).1 ∧
    (GlLayer.generateTexture (GlLayer.generateTexture l w).1
        (GlLayer.generateTexture l w).2.1).2.2 = [] := by
  by_cases h0 : l.texture.mId = 0 <;>
    simp [GlLayer.generateTexture, Driver.glGenTextures, h0, h, countDriverGen]

/-- Claim C4 witness: the amended statement instantiated on a freshly
constructed layer in a fresh device context. -/
theorem claim4_witness :
    World.initial.driver.nextId ≠ 0 ∧
    (countDriverGen ((GlLayer.generateTexture (GlLayer.construct 256 256) World.initial).2.2 ++
        (GlLayer.generateTexture
          (GlLayer.generateTexture (GlLayer.construct 256 256) World.initial).1
          (GlLayer.generateTexture (GlLayer.construct 256 256) World.initial).2.1).2.2) =
      (if (GlLayer.construct 256 256).texture.mId = 0 then 1 else 0) ∧
     (GlLayer.generateTexture
        (GlLayer.generateTexture (GlLayer.construct 256 256) World.initial).1
        (GlLayer.generateTexture (GlLayer.construct 256 256) World.initial).2.1).1 =
      (GlLayer.generateTexture (GlLayer.construct 256 256) World.initial).1 ∧
     (GlLayer.generateTexture
        (GlLayer.generateTexture (GlLayer.construct 256 256) World.initial).1
        (GlLayer.generateTexture (GlLayer.construct 256 256) World.initial).2.1).2.2 = []) :=
  ⟨by decide, claim4_theorem (GlLayer.construct 256 256) World.initial (by decide)⟩

/-- Claim C5: a freshly constructed layer has `handle == 0`, and
`bindTexture` on it performs zero driver and zero tracker calls (the world
is returned unchanged with an empty issued-call list, and the layer itself
is untouched). -/
theorem claim5_theorem (lw lh : Nat) (w : World) :
    (GlLayer.construct lw lh).texture.mId = 0 ∧
    GlLayer.bindTexture (GlLayer.construct lw lh) w = (GlLayer.construct lw lh, w, []) := by
  simp [GlLayer.construct, GlLayer.bindTexture]

/-- Claim C6: destroying a layer with `handle != 0` issues exactly one
driver destroy call and no tracker unbind (and no other) call; destroying a
layer with `handle == 0` issues zero driver and zero tracker calls. -/
theorem claim6_theorem (l : GlLayer) (w : World) :
    countDriverDelete (GlLayer.destructor l w).2 = (if l.texture.mId = 0 then 0 else 1) ∧
    countTrackerUnbind (GlLayer.destructor l w).2 = 0 ∧
    countTrackerBind (GlLayer.destructor l w).2 = 0 ∧
    countDriverGen (GlLayer.destructor l w).2 = 0 := by
  by_cases h0 : l.texture.mId = 0 <;>
    simp [GlLayer.destructor, Texture.deleteTexture, h0,
      countDriverDelete, countTrackerUnbind, countTrackerBind, countDriverGen]

/-- Claim C7 (counterexample): the claim states that once the handle has
been reset to `0` by either path, invoking the other path issues no driver
or tracker calls.  Resetting the allocated sample layer via
`onGlContextLost` and then invoking `clearTexture` with the Caches
initialized still issues a tracker call (the unguarded
`unbindTexture(texture.mId)` with `mId == 0`), so the claim as stated is
false at this input. -/
theorem claim7_counterexample :
    sampleAllocLayer.texture.mId ≠ 0 ∧
    (GlLayer.onGlContextLost sampleAllocLayer sampleWorld).1.texture.mId = 0 ∧
    ¬ (GlLayer.clearTexture (GlLayer.onGlContextLost sampleAllocLayer sampleWorld).1 true
        (GlLayer.onGlContextLost sampleAllocLayer sampleWorld).2.1).2.2 = [] := by
  decide

/-- Claim C7 (amended): once the handle is `0` (as both reset paths leave
it), the paths cannot double-release: `onGlContextLost` issues no call at
all and leaves everything unchanged, and `clearTexture` issues no driver
call and leaves the handle at `0`; however `clearTexture` has no
`handle != 0` guard — with the Caches initialized it still issues one
defensive tracker unbind call carrying the null handle `0`, which leaves
the tracker (and the whole world) unchanged. -/
theorem claim7_theorem (l : GlLayer) (w : World) (h : l.texture.mId = 0) :
    (GlLayer.onGlContextLost l w).2.2 = [] ∧
    (GlLayer.onGlContextLost l w).1.texture.mId = 0 ∧
    (GlLayer.onGlContextLost l w).2.1 = w ∧
    countDriverGen (GlLayer.clearTexture l true w).2.2 = 0 ∧
    countDriverDelete (GlLayer.clearTexture l true w).2.2 = 0 ∧
    (GlLayer.clearTexture l true w).2.2 = [Event.trackerUnbind 0] ∧
    (GlLayer.clearTexture l true w).2.1 = w ∧
    (GlLayer.clearTexture l true w).1.texture.mId = 0 ∧
    (GlLayer.clearTexture l false w).2.2 = [] := by
  refine ⟨?_, ?_, ?_, ?_, ?_, ?_, ?_, ?_, ?_⟩ <;>
    simp [GlLayer.onGlContextLost, GlLayer.clearTexture, Texture.deleteTexture, h,
      unbindTexture_zero, countDriverGen, countDriverDelete]

/-- Claim C7 witness: the amended statement instantiated on a freshly
constructed layer (handle `0`, as after either reset path) in the sample
world. -/
theorem claim7_witness :
    (GlLayer.construct 128 128).texture.mId = 0 ∧
    ((GlLayer.onGlContextLost (GlLayer.construct 128 128) sampleWorld).2.2 = [] ∧
     (GlLayer.onGlContextLost (GlLayer.construct 128 128) sampleWorld).1.texture.mId = 0 ∧
     (GlLayer.onGlContextLost (GlLayer.construct 128 128) sampleWorld).2.1 = sampleWorld ∧
     countDriverGen (GlLayer.clearTexture (GlLayer.construct 128 128) true sampleWorld).2.2 = 0 ∧
     countDriverDelete (GlLayer.clearTexture (GlLayer.construct 128 128) true sampleWorld).2.2 = 0 ∧
     (GlLayer.clearTexture (GlLayer.construct 128 128) true sampleWorld).2.2 =
       [Event.trackerUnbind 0] ∧
     (GlLayer.clearTexture (GlLayer.construct 128 128) true sampleWorld).2.1 = sampleWorld ∧
     (GlLayer.clearTexture (GlLayer.construct 128 128) true sampleWorld).1.texture.mId = 0 ∧
     (GlLayer.clearTexture (GlLayer.construct 128 128) false sampleWorld).2.2 = []) :=
  ⟨by decide, claim7_theorem (GlLayer.construct 128 128) sampleWorld (by decide)⟩

/-- Claim C8: in every reachable state of a layer, `handle == 0` implies no
driver-side resource exists under the sentinel name (`0` is never a live
driver name), and any bind or unbind performed while `handle == 0` is a
guaranteed no-op: `bindTexture` makes no call and changes nothing, and the
unbind step of `clearTexture` changes neither the tracker nor the driver,
whether or not the Caches is initialized. -/
theorem claim8_theorem (s : GlLayer × World) (hr : Reachable s)
    (h0 : s.1.texture.mId = 0) :
    0 ∉ s.2.driver.live ∧
    GlLayer.bindTexture s.1 s.2 = (s.1, s.2, []) ∧
    (GlLayer.clearTexture s.1 true s.2).2.1 = s.2 ∧
    (GlLayer.clearTexture s.1 false s.2).2.1 = s.2 := by
  obtain ⟨h1, h2⟩ := driverOk_reachable s hr
  refine ⟨fun hmem => h2 0 hmem rfl, ?_, ?_, ?_⟩ <;>
    simp [GlLayer.bindTexture, GlLayer.clearTexture, h0, unbindTexture_zero]

/-- Claim C8 witness: the invariant instantiated at the initial state of a
freshly constructed 256 by 256 layer, reachable via the empty operation
sequence. -/
theorem claim8_witness :
    Reachable sampleInit ∧
    sampleInit.1.texture.mId = 0 ∧
    (0 ∉ sampleInit.2.driver.live ∧
     GlLayer.bindTexture sampleInit.1 sampleInit.2 = (sampleInit.1, sampleInit.2, []) ∧
     (GlLayer.clearTexture sampleInit.1 true sampleInit.2).2.1 = sampleInit.2 ∧
     (GlLayer.clearTexture sampleInit.1 false sampleInit.2).2.1 = sampleInit.2) :=
  ⟨⟨256, 256, [], rfl⟩, rfl, claim8_theorem sampleInit ⟨256, 256, [], rfl⟩ rfl⟩

/-- Claim C9: invoking `onGlContextLost` on a layer that was never
allocated (`handle == 0`) is a no-op: the handle remains `0`, the world is
unchanged, and no driver or tracker call is made. -/
theorem claim9_theorem (l : GlLayer) (w : World) (h : l.texture.mId = 0) :
    (GlLayer.onGlContextLost l w).1.texture.mId = 0 ∧
    (GlLayer.onGlContextLost l w).2.1 = w ∧
    (GlLayer.onGlContextLost l w).2.2 = [] := by
  simp [GlLayer.onGlContextLost, Texture.deleteTexture, h]

/-- Claim C9 witness: the statement instantiated on a freshly constructed
layer in the sample world. -/
theorem claim9_witness :
    (GlLayer.construct 64 64).texture.mId = 0 ∧
    ((GlLayer.onGlContextLost (GlLayer.construct 64 64) sampleWorld).1.texture.mId = 0 ∧
     (GlLayer.onGlContextLost (GlLayer.construct 64 64) sampleWorld).2.1 = sampleWorld ∧
     (GlLayer.onGlContextLost (GlLayer.construct 64 64) sampleWorld).2.2 = []) :=
  ⟨by decide, claim9_theorem (GlLayer.construct 64 64) sampleWorld (by decide)⟩

/-- Claim C10: `bindTexture` never mutates the layer or its texture
resource — for every layer state, allocated or not, the handle, width,
height, target kind and API variant after the call equal their values
before it. -/
theorem claim10_theorem (l : GlLayer) (w : World) :
    (GlLayer.bindTexture l w).1.texture.mId = l.texture.mId ∧
    (GlLayer.bindTexture l w).1.texture.mWidth = l.texture.mWidth ∧
    (GlLayer.bindTexture l w).1.texture.mHeight = l.texture.mHeight ∧
    (GlLayer.bindTexture l w).1.texture.mTarget = l.texture.mTarget ∧
    (GlLayer.bindTexture l w).1.apiVariant = l.apiVariant := by
  by_cases h0 : l.texture.mId = 0 <;> simp [GlLayer.bindTexture, h0]

end HwuiGlLayer
